import Mathlib

/-!
# Verification of the Palia watering-tracker core computations

This file gives a shallow embedding of the two pure computation components of
the repository — the Calendar Engine (`src/App.tsx`, the `timeData` memo) and
the Garden Code Decoder (`src/services/plannerService.ts`) — together with the
pure state transitions of the tracking store
(`src/hooks/useUnifiedGardenStore.ts`), and proves or refutes the frozen
claims about them.

Conventions of the embedding:
* JavaScript numbers are embedded as exact arithmetic.  The calendar engine
  works in *milliseconds* as `ℤ` (the source divides the epoch value by 1000
  and continues in float seconds; at these magnitudes every intermediate value
  is an exact multiple of 1/1000 s, so scaling everything by 1000 is lossless).
  JavaScript `%` is the truncated remainder (`Int.tmod`), `Math.floor` of a
  quotient is floor division (`Int.fdiv`).
* Strings are processed as `List Char`; `String.prototype.split` with a
  one-character separator is `splitOnSep`, and the decoder's regex
  `[A-Z](?:\.[A-Z]|[^A-Z])*` with `String.prototype.match` is the
  tokenizer `jsMatch` below.
* `uuidv4()` (a fresh random identifier per call) is embedded by passing an
  explicit identifier supply `uuid : ℕ → String` consumed left to right; two
  program runs correspond to two different supplies.
* Fallible operations return `Except String`, carrying the exact message of
  the `Error` thrown by the source.
-/

namespace Clock

/-- Constant `PST_UTC_SUNDAY_OFFSET` from `App.tsx`: `60 * 60 * (8 + 3 * 24)` seconds
(8 hours PST plus 3 days). -/
def PST_UTC_SUNDAY_OFFSET : ℤ := 60 * 60 * (8 + 3 * 24)

/-- Value `realTimePST = currentTime / 1000 - PST_UTC_SUNDAY_OFFSET`, scaled to
milliseconds: the source value in seconds is this value divided by 1000. -/
def realTimePST (currentTime : ℤ) : ℤ := currentTime - 1000 * PST_UTC_SUNDAY_OFFSET

/-- Value `palianTimeOfDay = (realTimePST * 24) % (24 * 60 * 60)` — seconds since
in-game midnight, scaled to milliseconds.  JavaScript `%` is the truncated
remainder, hence `Int.tmod` (negative dividends give non-positive results). -/
def palianTimeOfDay (t : ℤ) : ℤ := Int.tmod (realTimePST t * 24) (24 * 60 * 60 * 1000)

/-- Value `palianMinutes = Math.floor(palianTimeOfDay / 60)` (the embedded time of
day is in ms, so the divisor is 60000). -/
def palianMinutes (t : ℤ) : ℤ := Int.fdiv (palianTimeOfDay t) 60000

/-- Value `hours = Math.floor(palianMinutes / 60)`. -/
def hours (t : ℤ) : ℤ := Int.fdiv (palianMinutes t) 60

/-- Value `minutes = palianMinutes % 60` (JavaScript truncated remainder). -/
def minutes (t : ℤ) : ℤ := Int.tmod (palianMinutes t) 60

/-- Value `totalCycles = Math.floor(realTimePST / 3600)` — the integer value of the
cycle identifier `cycle-${totalCycles}` (divisor scaled to ms). -/
def totalCycles (t : ℤ) : ℤ := Int.fdiv (realTimePST t) (3600 * 1000)

/-- Identifier string of the current cycle from `App.tsx`: the word cycle, a dash, and the integer `totalCycles`. -/
def cycleId (t : ℤ) : String := "cycle-" ++ toString (totalCycles t)

/-- Function `getPartOfDay` from `App.tsx` (the Night test comes first, exactly as in
the source). -/
def getPartOfDay (hours : ℤ) : String :=
  if hours ≥ 21 ∨ hours < 3 then "Night"
  else if hours ≥ 18 then "Evening"
  else if hours ≥ 6 then "Day"
  else "Morning"

end Clock

namespace Planner

/-- A garden grid tile, `GridTile` from `src/types/layout.ts`.  `cropType` and
`fertilizerType` are `null`able strings in the source; the optional `cropId`
is generated with `uuidv4()` for multi-tile crops. -/
structure GridTile where
  row : Nat
  col : Nat
  cropType : Option String
  fertilizerType : Option String
  needsWater : Bool
  cropId : Option String
  isActive : Bool
deriving DecidableEq

/-- One entry of `CropSummary.cropBreakdown` from `src/types/layout.ts`. -/
structure BreakdownEntry where
  total : Nat
  needingWater : Nat
  size : String
  tilesPerPlant : Nat
deriving DecidableEq

/-- Structure `CropSummary` from `src/types/layout.ts`.  `cropBreakdown` is a JavaScript
object keyed by crop type; it is embedded as an association list in key
insertion order (JavaScript objects preserve string-key insertion order, and
`Object.entries` yields it).  The float field `wateringPercentage`
(`Math.round(x * 100) / 100`) is stored exactly, scaled by 100, as the integer
`wateringPercentageHundredths = Math.round(x * 100)`. -/
structure CropSummary where
  totalPlants : Nat
  plantsNeedingWater : Nat
  cropBreakdown : List (String × BreakdownEntry)
  wateringPercentageHundredths : ℤ
deriving DecidableEq

/-- Structure `ParsedGardenData` from `src/types/layout.ts`. -/
structure ParsedGardenData where
  dimensionsRows : Nat
  dimensionsColumns : Nat
  tiles : List (List GridTile)
  activePlots : List (List Bool)
  cropSummary : CropSummary
  saveCode : String
  version : String
  settings : Option String
deriving DecidableEq

/-- Table `CROP_MAPPINGS` from `plannerService.ts` (crop code → crop name), as a
lookup on the code's characters. -/
def CROP_MAPPINGS : List Char → Option String
  | ['N'] => some "None"
  | ['T'] => some "Tomato"
  | ['P'] => some "Potato"
  | ['R'] => some "Rice"
  | ['W'] => some "Wheat"
  | ['C'] => some "Carrot"
  | ['O'] => some "Onion"
  | ['C', 'o'] => some "Cotton"
  | ['B'] => some "Blueberry"
  | ['A'] => some "Apple"
  | ['C', 'r'] => some "Corn"
  | ['S'] => some "Spicy Pepper"
  | ['C', 'b'] => some "Napa Cabbage"
  | ['B', 'k'] => some "Bok Choy"
  | ['P', 'm'] => some "Rockhopper Pumpkin"
  | ['B', 't'] => some "Batterfly Bean"
  | _ => none

/-- Table `FERTILIZER_MAPPINGS` from `plannerService.ts`. -/
def FERTILIZER_MAPPINGS : List Char → Option String
  | ['N'] => some "None"
  | ['S'] => some "Speedy Gro"
  | ['Q'] => some "Quality Up"
  | ['W'] => some "Weed Block"
  | ['H'] => some "Harvest Boost"
  | ['Y'] => some "Hydrate Pro"
  | _ => none

/-- A `CROP_SIZES` record value from `plannerService.ts`. -/
structure CropSize where
  size : String
  tiles : Nat
deriving DecidableEq

/-- Table `CROP_SIZES` from `plannerService.ts` (crop name → size class and tile
footprint). -/
def CROP_SIZES : String → Option CropSize
  | "Tomato" => some ⟨"single", 1⟩
  | "Potato" => some ⟨"single", 1⟩
  | "Rice" => some ⟨"single", 1⟩
  | "Wheat" => some ⟨"single", 1⟩
  | "Carrot" => some ⟨"single", 1⟩
  | "Onion" => some ⟨"single", 1⟩
  | "Cotton" => some ⟨"single", 1⟩
  | "Corn" => some ⟨"single", 1⟩
  | "Napa Cabbage" => some ⟨"single", 1⟩
  | "Bok Choy" => some ⟨"single", 1⟩
  | "Blueberry" => some ⟨"bush", 4⟩
  | "Spicy Pepper" => some ⟨"bush", 4⟩
  | "Batterfly Bean" => some ⟨"bush", 4⟩
  | "Rockhopper Pumpkin" => some ⟨"bush", 4⟩
  | "Apple" => some ⟨"tree", 9⟩
  | _ => none

/-- JavaScript `String.prototype.split` with a one-character separator
(`split('_')`, `split('-')`, `split('.')`, `split('&')`, `split('=')` in the
source).  Like in JavaScript, the result is never empty: splitting the empty
string yields `[[]]`. -/
def splitOnSep (sep : Char) : List Char → List (List Char)
  | [] => [[]]
  | c :: rest =>
    match splitOnSep sep rest with
    | [] => [[]]
    | h :: t => if c = sep then [] :: h :: t else (c :: h) :: t

/-- JavaScript `String.prototype.startsWith`, first argument the pattern. -/
def startsWithChars : List Char → List Char → Bool
  | [], _ => true
  | _ :: _, [] => false
  | p :: ps, c :: cs => p == c && startsWithChars ps cs

/-- The character class `[A-Z]` of the tokenizer regex. -/
def jsIsUpper (c : Char) : Bool := 'A' ≤ c && c ≤ 'Z'

/-- The continuation part `(?:\.[A-Z]|[^A-Z])*` of the tokenizer regex
`/[A-Z](?:\.[A-Z]|[^A-Z])*/g` from `plannerService.ts`: greedily consume
either a dot followed by an uppercase letter, or any single non-uppercase
character (the dot falls back to the second alternative when not followed by
an uppercase letter).  Returns the consumed characters and the rest.

The recursion is structural on an explicit fuel so that the definition
computes by kernel reduction; every step consumes at least one character and
one unit of fuel, so `fuel = length of the input` (what the callers pass)
never reaches the out-of-fuel case. -/
def tokenTailFuel : Nat → List Char → List Char × List Char
  | _, [] => ([], [])
  | 0, l => ([], l)
  | fuel + 1, '.' :: c :: rest =>
    if jsIsUpper c then
      let p := tokenTailFuel fuel rest
      ('.' :: c :: p.1, p.2)
    else
      let p := tokenTailFuel fuel (c :: rest)
      ('.' :: p.1, p.2)
  | fuel + 1, c :: rest =>
    if jsIsUpper c then ([], c :: rest)
    else
      let p := tokenTailFuel fuel rest
      (c :: p.1, p.2)

/-- All matches of the global regex `/[A-Z](?:\.[A-Z]|[^A-Z])*/g`, scanning
left to right: each match starts at the next uppercase letter and extends by
greedy consumption (`tokenTailFuel`).  Fuel as in `tokenTailFuel`. -/
def jsMatchAuxFuel : Nat → List Char → List (List Char)
  | _, [] => []
  | 0, _ => []
  | fuel + 1, c :: rest =>
    if jsIsUpper c then
      let p := tokenTailFuel rest.length rest
      (c :: p.1) :: jsMatchAuxFuel fuel p.2
    else jsMatchAuxFuel fuel rest

/-- Evaluation of `plotCropString.match(...)` with the tokenizer regex: the list of tile
tokens of a plot string (`null` in JavaScript corresponds to `[]`). -/
def jsMatch (s : List Char) : List (List Char) := jsMatchAuxFuel s.length s

/-- The tile value used when reading out of range (never relevant: the source
indexes within bounds, guarded by explicit `<` checks). -/
def defaultTile : GridTile :=
  { row := 0, col := 0, cropType := none, fertilizerType := none,
    needsWater := false, cropId := none, isActive := false }

/-- Read `tiles[r][c]`. -/
def getTile (tiles : List (List GridTile)) (r c : Nat) : GridTile :=
  (tiles.getD r []).getD c defaultTile

/-- Write `tiles[r][c]`. -/
def setTile (tiles : List (List GridTile)) (r c : Nat) (t : GridTile) :
    List (List GridTile) :=
  tiles.set r ((tiles.getD r []).set c t)

/-- The initial tile grid of `parseGridData` (`plannerService.ts` lines
357-375): all tiles unassigned, `isActive` from the plot activity grid. -/
def mkInitialTiles (tileRows tileColumns plotRows plotColumns : Nat)
    (activePlots : List (List Bool)) : List (List GridTile) :=
  (List.range tileRows).map fun i =>
    (List.range tileColumns).map fun j =>
      let plotRow := i / 3
      let plotCol := j / 3
      let isPlotActive := decide (plotRow < plotRows) && decide (plotCol < plotColumns)
        && (activePlots.getD plotRow []).getD plotCol false
      { row := i, col := j, cropType := none, fertilizerType := none,
        needsWater := false, cropId := none, isActive := isPlotActive }

/-- The crop half of the per-tile body of the plot loop of `parseGridData`
(lines 402-412): assign the crop name when the code is known and not the
no-crop code `N`, and generate a fresh identifier for multi-tile crops.
Returns the updated tile and identifier-supply counter. -/
def applyCrop (uuid : ℕ → String) (ctr : Nat) (token : List Char)
    (tile : GridTile) : GridTile × Nat :=
  let cropCode := (splitOnSep '.' token).getD 0 []
  match CROP_MAPPINGS cropCode with
  | some name =>
    if name ≠ "None" then
      let t1 := { tile with cropType := some name }
      match CROP_SIZES name with
      | some cropSize =>
        if cropSize.size ≠ "single" then ({ t1 with cropId := some (uuid ctr) }, ctr + 1)
        else (t1, ctr)
      | none => (t1, ctr)
    else (tile, ctr)
  | none => (tile, ctr)

/-- The fertilizer half of the per-tile body of the plot loop of
`parseGridData` (lines 414-417): assign the fertilizer when the code is
present (in JavaScript, a truthy — hence non-empty — split component), known,
and not `N`. -/
def applyFert (token : List Char) (tile : GridTile) : GridTile :=
  match (splitOnSep '.' token).get? 1 with
  | some f =>
    if f ≠ [] then
      match FERTILIZER_MAPPINGS f with
      | some fname =>
        if fname ≠ "None" then { tile with fertilizerType := some fname }
        else tile
      | none => tile
    else tile
  | none => tile

/-- The per-tile body of the plot loop of `parseGridData` (lines 396-418):
split the tile token on `.` and run the crop and fertilizer assignments on
the addressed tile.  Returns the updated grid and identifier-supply
counter. -/
def applyToken (uuid : ℕ → String) (tiles : List (List GridTile)) (ctr : Nat)
    (tileRow tileCol : Nat) (token : List Char) : List (List GridTile) × Nat :=
  let cropped := applyCrop uuid ctr token (getTile tiles tileRow tileCol)
  (setTile tiles tileRow tileCol (applyFert token cropped.1), cropped.2)

/-- The 3×3 inner loops of `parseGridData` (lines 390-421): place the nine
tokens of one plot at tile positions `(plotRow*3+pi, plotCol*3+pj)` in
row-major order (`tileIndex = pi*3+pj` runs 0..8 in sync with the loops). -/
def applyPlot (uuid : ℕ → String) (tileRows tileColumns : Nat)
    (tiles : List (List GridTile)) (ctr : Nat) (plotRow plotCol : Nat)
    (cropCodes : List (List Char)) : List (List GridTile) × Nat :=
  (List.range 9).foldl
    (fun st tileIndex =>
      let pi := tileIndex / 3
      let pj := tileIndex % 3
      let tileRow := plotRow * 3 + pi
      let tileCol := plotCol * 3 + pj
      if tileRow < tileRows ∧ tileCol < tileColumns ∧ tileIndex < cropCodes.length then
        applyToken uuid st.1 st.2 tileRow tileCol (cropCodes.getD tileIndex [])
      else st)
    (tiles, ctr)

/-- The body of the plot loop of `parseGridData` (lines 379-428) for one
`(plotRow, plotCol)`: active plots consume the next crop-row entry; a plot
whose tokenization does not yield exactly 9 tokens is logged as a warning and
skipped (its tiles remain unassigned), but still consumes its entry.  The
state is `(tiles, plotIndex, identifier counter)`. -/
def plotStep (uuid : ℕ → String) (tileRows tileColumns : Nat)
    (cropRows : List (List Char)) (activePlots : List (List Bool))
    (st : List (List GridTile) × Nat × Nat) (plotRow plotCol : Nat) :
    List (List GridTile) × Nat × Nat :=
  let (tiles, plotIndex, ctr) := st
  if ((activePlots.getD plotRow []).getD plotCol false) ∧ plotIndex < cropRows.length then
    let plotCropString := cropRows.getD plotIndex []
    let cropCodes := jsMatch plotCropString
    if cropCodes.length = 9 then
      let r := applyPlot uuid tileRows tileColumns tiles ctr plotRow plotCol cropCodes
      (r.1, plotIndex + 1, r.2)
    else
      (tiles, plotIndex + 1, ctr)
  else st

/-- The full double plot loop of `parseGridData` (lines 378-428), row-major
over plot positions. -/
def processPlots (uuid : ℕ → String) (tileRows tileColumns : Nat)
    (cropRows : List (List Char)) (activePlots : List (List Bool))
    (plotRows plotColumns : Nat) (tiles0 : List (List GridTile)) :
    List (List GridTile) × Nat × Nat :=
  (List.range plotRows).foldl
    (fun st plotRow =>
      (List.range plotColumns).foldl
        (fun st plotCol => plotStep uuid tileRows tileColumns cropRows activePlots st plotRow plotCol)
        st)
    (tiles0, 0, 0)

/-- The `tileCounts` accumulation of `generateCropSummary` (lines 476-489): a
JavaScript object keyed by crop type in first-occurrence order, counting total
tiles and tiles needing water.  (The separate `cropTiles` array the source
builds first, lines 466-473, is dead code — it is never read — and is not
embedded.) -/
def bumpCount (m : List (String × Nat × Nat)) (k : String) (needs : Bool) :
    List (String × Nat × Nat) :=
  match m with
  | [] => [(k, 1, if needs then 1 else 0)]
  | (k', t, w) :: rest =>
    if k' = k then (k', t + 1, if needs then w + 1 else w) :: rest
    else (k', t, w) :: bumpCount rest k needs

/-- Row-major tile scan feeding `bumpCount`, guarded exactly as in the source:
`tile.cropType && tile.cropType !== 'None' && tile.isActive`. -/
def tileCountsOf (tiles : List (List GridTile)) : List (String × Nat × Nat) :=
  tiles.foldl
    (fun m row => row.foldl
      (fun m tile =>
        match tile.cropType with
        | some c => if c ≠ "None" ∧ tile.isActive then bumpCount m c tile.needsWater else m
        | none => m)
      m)
    []

/-- Rounding `Math.round(a / b)` for naturals with `b > 0`: JavaScript rounds half
away from zero upward, i.e. `⌊a/b + 1/2⌋ = ⌊(2a+b)/(2b)⌋`. -/
def jsRoundDiv (a b : Nat) : Nat := (2 * a + b) / (2 * b)

/-- The second half of `generateCropSummary` (lines 491-519): convert tile
counts to plant counts with integer floor division by the crop's footprint,
drop zero-plant entries, and accumulate the totals.  The percentage field is
`Math.round(((plantsNeedingWater / totalPlants) * 100) * 100) / 100`, stored
exactly as its value scaled by 100. -/
def summarize (counts : List (String × Nat × Nat)) : CropSummary :=
  let acc := counts.foldl
    (fun (acc : List (String × BreakdownEntry) × Nat × Nat) e =>
      match CROP_SIZES e.1 with
      | some cropSize =>
        let plantCount := e.2.1 / cropSize.tiles
        let plantsNeedingWaterCount := e.2.2 / cropSize.tiles
        if plantCount > 0 then
          (acc.1 ++ [(e.1, { total := plantCount, needingWater := plantsNeedingWaterCount,
                             size := cropSize.size, tilesPerPlant := cropSize.tiles })],
           acc.2.1 + plantCount, acc.2.2 + plantsNeedingWaterCount)
        else acc
      | none => acc)
    ([], 0, 0)
  { totalPlants := acc.2.1, plantsNeedingWater := acc.2.2,
    cropBreakdown := acc.1,
    wateringPercentageHundredths :=
      if acc.2.1 > 0 then (jsRoundDiv (acc.2.2 * 100 * 100) acc.2.1 : ℤ) else 0 }

/-- Function `generateCropSummary` from `plannerService.ts` (lines 460-520). -/
def generateCropSummary (tiles : List (List GridTile)) : CropSummary :=
  summarize (tileCountsOf tiles)

/-- The save-code parsing stage of `parseGridData` (`plannerService.ts` lines
303-453), applied after URL unwrapping.  The error strings are the messages of
the `Error`s the source throws; a dimension block with no `-` makes the source
dereference `undefined` (`plotDimensions[0].length`), which surfaces as a
(caught and rethrown) `TypeError`. -/
def parseGridDataCore (uuid : ℕ → String) (saveCode : List Char) :
    Except String ParsedGardenData :=
  let sections := splitOnSep '_' saveCode
  if sections.length < 3 then
    .error "Invalid save code format - insufficient sections."
  else
    let version := sections.getD 0 []
    let dimensionInfo := sections.getD 1 []
    let cropInfo := sections.getD 2 []
    let settingsInfo := (sections.get? 3).getD []
    if startsWithChars ['v'] version then
      match (splitOnSep '-' dimensionInfo).drop 1 with
      | [] => .error "TypeError: Cannot read properties of undefined (reading 'length')"
      | d0 :: ds =>
        let plotDimensions := d0 :: ds
        let plotRows := plotDimensions.length
        let plotColumns := d0.length
        let tileRows := plotRows * 3
        let tileColumns := plotColumns * 3
        let activePlots : List (List Bool) :=
          (List.range plotRows).map fun i =>
            (List.range plotColumns).map fun j =>
              (plotDimensions.getD i []).getD j ' ' == '1'
        if startsWithChars ['C', 'R', '-'] cropInfo then
          let cropsSection := cropInfo.drop 3
          let cropRows := splitOnSep '-' cropsSection
          let tiles0 := mkInitialTiles tileRows tileColumns plotRows plotColumns activePlots
          let tilesF := (processPlots uuid tileRows tileColumns cropRows activePlots
            plotRows plotColumns tiles0).1
          .ok { dimensionsRows := tileRows, dimensionsColumns := tileColumns,
                tiles := tilesF, activePlots := activePlots,
                cropSummary := generateCropSummary tilesF,
                saveCode := String.mk saveCode, version := String.mk version,
                settings := if settingsInfo.isEmpty then none else some (String.mk settingsInfo) }
        else .error "Invalid save code format - crops section should start with CR-."
    else .error "Invalid save code format - missing version prefix."

/-- Modelled from the spec (§6 external interfaces): the URL unwrapping
pre-step.  The source calls the platform's `new URL(input)` /
`url.searchParams.get('layout')`, which is not code of this repository; it is
modelled here for plain absolute `http(s)` URLs — scheme, host name compared
against the one fixed expected host, and extraction of the `layout` query
parameter — without percent-escape decoding, userinfo, or ports.  Error
messages are those the source throws on each path. -/
def urlExtract (rest : List Char) : Except String (List Char) :=
  let host := rest.takeWhile (fun c => !(c == '/' || c == '?' || c == '#' || c == ':'))
  if host = "palia-garden-planner.vercel.app".toList then
    let afterHost := rest.drop host.length
    match afterHost.dropWhile (fun c => c != '?') with
    | [] => .error "Invalid Palia Planner URL - no layout parameter found."
    | _ :: query =>
      let query := query.takeWhile (fun c => c != '#')
      match (splitOnSep '&' query).findSome? (fun p =>
        let kv := splitOnSep '=' p
        if kv.getD 0 [] = "layout".toList then some ((kv.get? 1).getD []) else none) with
      | some v =>
        if v = [] then .error "Invalid Palia Planner URL - no layout parameter found."
        else .ok v
      | none => .error "Invalid Palia Planner URL - no layout parameter found."
  else .error "Invalid Palia Planner URL."

/-- Modelled from the spec (§6): dispatch of `new URL` on the scheme.  Inputs
that start with `http` but are not valid absolute URLs make `new URL` throw,
which the source converts to `Invalid URL format.`. -/
def extractLayoutParam (l : List Char) : Except String (List Char) :=
  if startsWithChars "https://".toList l then urlExtract (l.drop 8)
  else if startsWithChars "http://".toList l then urlExtract (l.drop 7)
  else .error "Invalid URL format."

/-- Function `parseGridData` from `plannerService.ts` (lines 273-453): unwrap a
planner URL when the input starts with `http`, then run the save-code parsing
stage.  `uuid` is the explicit supply standing for the `uuidv4()` calls. -/
def parseGridData (uuid : ℕ → String) (input : String) : Except String ParsedGardenData :=
  let l := input.toList
  if startsWithChars "http".toList l then
    match extractLayoutParam l with
    | .ok code => parseGridDataCore uuid code
    | .error e => .error e
  else parseGridDataCore uuid l

/-- A concrete identifier supply standing for one run's sequence of
`uuidv4()` results. -/
def uuidA (n : ℕ) : String := "a" ++ Nat.repr n

/-- A second, everywhere-different identifier supply standing for another
run's sequence of `uuidv4()` results. -/
def uuidB (n : ℕ) : String := "b" ++ Nat.repr n

/-- Modelled from the spec (§4.2 step 5, §7): the unknown-crop-code diagnostic
count the spec requires to be reported — the number of tile tokens across the
crop block whose crop code is not in `CROP_MAPPINGS`.  The source computes no
such value; this definition is the yardstick against which "the number of
unknown codes is reported" is judged. -/
def unknownCropCodeCount (saveCode : List Char) : Nat :=
  let sections := splitOnSep '_' saveCode
  let cropInfo := sections.getD 2 []
  let cropRows := splitOnSep '-' (cropInfo.drop 3)
  (cropRows.map (fun row =>
    ((jsMatch row).filter (fun tok =>
      (CROP_MAPPINGS ((splitOnSep '.' tok).getD 0 [])).isNone)).length)).sum

/-- Erase the generated multi-tile identifier of one tile. -/
def eraseTileId (t : GridTile) : GridTile := { t with cropId := none }

/-- Erase all generated multi-tile identifiers of a grid. -/
def eraseGridIds (g : List (List GridTile)) : List (List GridTile) :=
  g.map (List.map eraseTileId)

/-- Erase all generated multi-tile identifiers of a parsed garden. -/
def eraseIds (g : ParsedGardenData) : ParsedGardenData :=
  { g with tiles := eraseGridIds g.tiles }

/-- The fixed sample save code from the repository's demo
(`demonstrateGridParsing`). -/
def SAMPLE_SAVE_CODE : String :=
  "v0.4_D-111-111-111_CR-TTTTTTTTT-PPPPPPPPP-AAAAAAAAA-NNNNNNNNN-NNNNNNNNN-NNNNNNNNN-NNNNNNNNN-NNNNNNNNN-NNNNNNNNN"

/-- A save code whose first plot entry (`TTTTTTTT`) tokenizes to 8 tile
tokens instead of 9. -/
def EIGHT_TOKEN_CODE : String := "v0.4_D-111_CR-TTTTTTTT-PPPPPPPPP-NNNNNNNNN"

/-- A save code whose first tile carries the unknown crop code `Z`. -/
def UNKNOWN_CODE_SAVE : String := "v0.4_D-111_CR-ZTTTTTTTT-NNNNNNNNN-NNNNNNNNN"

/-- The same garden as `UNKNOWN_CODE_SAVE` with the unknown `Z` replaced by
the known no-crop code `N`. -/
def KNOWN_CODE_SAVE : String := "v0.4_D-111_CR-NTTTTTTTT-NNNNNNNNN-NNNNNNNNN"

/-- A planner URL carrying a valid layout parameter.  As a raw string it
splits on `_` into sections whose first section does not start with `v`. -/
def URL_INPUT : String :=
  "http://palia-garden-planner.vercel.app?layout=v0.4_D-111_CR-NNNNNNNNN"

/-- The `(cropType, fertilizerType)` grid common to the decodes of
`UNKNOWN_CODE_SAVE` and `KNOWN_CODE_SAVE`: the first plot's first tile is
unassigned (unknown `Z` and no-crop `N` decode identically), its remaining
eight tiles are Tomato, the other two plots are empty. -/
def tomatoPlotCropFert : List (List (Option String × Option String)) :=
  [[(none, none), (some "Tomato", none), (some "Tomato", none)]
     ++ List.replicate 6 (none, none),
   [(some "Tomato", none), (some "Tomato", none), (some "Tomato", none)]
     ++ List.replicate 6 (none, none),
   [(some "Tomato", none), (some "Tomato", none), (some "Tomato", none)]
     ++ List.replicate 6 (none, none)]

end Planner

namespace Store

/-- Structure `Plant` from `src/types/index.ts`. -/
structure Plant where
  id : String
  name : String
  needsWater : Bool
deriving DecidableEq

/-- Structure `TrackedCrop` from `src/types/unified.ts`.  `source` is the string
`"manual"` or `"import"`; `Date` values are embedded as epoch milliseconds. -/
structure TrackedCrop where
  cropType : String
  source : String
  plantInstances : List Plant
  totalCount : Nat
  isWatered : Bool
  addedAt : ℤ
  lastWateredAt : Option ℤ
deriving DecidableEq

/-- Structure `DailyWateringState` from `src/types/unified.ts`. -/
structure DailyWateringState where
  lastResetDay : String
  resetTime : Nat
deriving DecidableEq

/-- The store state acted on by the `useUnifiedGardenStore` actions (the
fields the actions read and write; zustand's `set` merges partial updates, so
an action that returns only `lastError` leaves the other fields as they
were).  Persistence to local storage is an out-of-scope side effect and is not
part of the state transition. -/
structure StoreState where
  trackedCrops : List TrackedCrop
  dailyWateringState : DailyWateringState
  lastError : Option String
deriving DecidableEq

/-- Function `createTrackedCrop` from `src/types/unified.ts`; the `new Date()` it
stores in `addedAt` is passed in as `now`. -/
def createTrackedCrop (cropType : String) (source : String)
    (plantInstances : List Plant) (now : ℤ) : TrackedCrop :=
  { cropType := cropType, source := source, plantInstances := plantInstances,
    totalCount := if source = "manual" then 1 else plantInstances.length,
    isWatered := false, addedAt := now, lastWateredAt := none }

/-- Action `addCropManually` from `useUnifiedGardenStore.ts` (lines 97-121): when the
crop type is already tracked (`state.trackedCrops.find(...)` is truthy) the
update only records an error message; otherwise the new crop is appended. -/
def addCropManually (s : StoreState) (cropType : String) (now : ℤ) : StoreState :=
  if s.trackedCrops.any (fun crop => crop.cropType == cropType) then
    { s with lastError := some (cropType ++ " is already being tracked") }
  else
    { s with
      trackedCrops := s.trackedCrops ++ [createTrackedCrop cropType "manual" [] now],
      lastError := none }

/-- Action `resetDailyWatering` from `useUnifiedGardenStore.ts` (lines 258-284):
clear every crop's `isWatered`, record the given day as `lastResetDay`
(spreading the previous watering state, so `resetTime` is kept), clear the
error. -/
def resetDailyWatering (s : StoreState) (currentDay : String) : StoreState :=
  { trackedCrops := s.trackedCrops.map (fun crop => { crop with isWatered := false }),
    dailyWateringState := { s.dailyWateringState with lastResetDay := currentDay },
    lastError := none }

/-- A concrete store state (one tracked, watered Tomato) used to instantiate
the store theorems. -/
def sampleStore : StoreState :=
  { trackedCrops := [{ cropType := "Tomato", source := "manual", plantInstances := [],
                       totalCount := 1, isWatered := true, addedAt := 0,
                       lastWateredAt := some 10 }],
    dailyWateringState := { lastResetDay := "Day 1 Cycle 01", resetTime := 6 },
    lastError := none }

end Store

namespace Clock

/-- Shifting the instant by `d` milliseconds shifts `realTimePST` by `d`. -/
theorem realTimePST_add (t d : ℤ) : realTimePST (t + d) = realTimePST t + d := by
  unfold realTimePST; ring

/-- From the millisecond value of the constant shift onward, `realTimePST` is
non-negative. -/
theorem realTimePST_nonneg (t : ℤ) (h : 288000000 ≤ t) : 0 ≤ realTimePST t := by
  unfold realTimePST PST_UTC_SUNDAY_OFFSET; omega

/-- C3 (counterexample): at the instant 1000 ms after the epoch — a negative
shifted time — the derived hour is `-24`, outside `[0,24)`: JavaScript `%` on
a negative dividend returns a non-positive remainder, so the whole chain goes
negative.  This refutes "for every Instant (including negative and extremely
large values) hour ∈ [0,24) and minute ∈ [0,60)". -/
theorem hours_negative_at_small_instant :
    hours 1000 = -24 ∧ ¬ (0 ≤ hours 1000) := by decide

/-- C3 (amended): for every instant at or after the fixed reference shift
(`t ≥ 288000000` ms, i.e. whenever the shifted time `realTimePST` is
non-negative — in particular for all present-day and arbitrarily large
instants), the derived clock satisfies `hour ∈ [0,24)` and
`minute ∈ [0,60)`.  Before the shifted epoch the chain of truncated
remainders goes negative instead. -/
theorem hours_minutes_in_range (t : ℤ) (h : 288000000 ≤ t) :
    0 ≤ hours t ∧ hours t < 24 ∧ 0 ≤ minutes t ∧ minutes t < 60 := by
  have h0 : 0 ≤ realTimePST t := realTimePST_nonneg t h
  have h1 : 0 ≤ realTimePST t * 24 := by omega
  have e1 : palianTimeOfDay t = (realTimePST t * 24) % 86400000 := by
    unfold palianTimeOfDay
    rw [Int.tmod_eq_emod h1 (by norm_num)]
    norm_num
  have hp0 : 0 ≤ palianTimeOfDay t := by
    rw [e1]; exact Int.emod_nonneg _ (by norm_num)
  have hp1 : palianTimeOfDay t < 86400000 := by
    rw [e1]; exact Int.emod_lt_of_pos _ (by norm_num)
  have e2 : palianMinutes t = palianTimeOfDay t / 60000 := by
    unfold palianMinutes
    exact Int.fdiv_eq_ediv _ (by norm_num)
  have hm0 : 0 ≤ palianMinutes t := by
    rw [e2]; exact Int.ediv_nonneg hp0 (by norm_num)
  have hm1 : palianMinutes t < 1440 := by
    rw [e2]; exact Int.ediv_lt_of_lt_mul (by norm_num) (by omega)
  have e3 : hours t = palianMinutes t / 60 := by
    unfold hours
    exact Int.fdiv_eq_ediv _ (by norm_num)
  have e4 : minutes t = palianMinutes t % 60 := by
    unfold minutes
    exact Int.tmod_eq_emod hm0 (by norm_num)
  refine ⟨?_, ?_, ?_, ?_⟩
  · rw [e3]; omega
  · rw [e3]; omega
  · rw [e4]; omega
  · rw [e4]; omega

/-- Witness for the amended C3 at a present-day instant. -/
theorem hours_minutes_in_range_witness :
    (288000000 : ℤ) ≤ 1700000000000 ∧ 0 ≤ hours 1700000000000 := by
  exact ⟨by decide, (hours_minutes_in_range 1700000000000 (by decide)).1⟩

/-- C4: advancing the instant by exactly 3600000 ms (one real hour) advances
the integer value of the cycle identifier by exactly 1, and changes the
time-of-day only by an integer multiple of a full in-game day (86400000 in
the millisecond scaling, i.e. 86400 s). -/
theorem cycle_advances_each_hour (t : ℤ) :
    totalCycles (t + 3600000) = totalCycles t + 1 ∧
    ∃ k : ℤ, palianTimeOfDay (t + 3600000) - palianTimeOfDay t = 86400000 * k := by
  constructor
  · unfold totalCycles
    rw [realTimePST_add]
    rw [Int.fdiv_eq_ediv _ (by norm_num), Int.fdiv_eq_ediv _ (by norm_num)]
    have := Int.add_mul_ediv_right (realTimePST t) 1 (by norm_num : (3600000 : ℤ) ≠ 0)
    norm_num at this ⊢
    omega
  · refine ⟨1 - Int.tdiv ((realTimePST t + 3600000) * 24) 86400000
        + Int.tdiv (realTimePST t * 24) 86400000, ?_⟩
    unfold palianTimeOfDay
    rw [realTimePST_add]
    rw [Int.tmod_def, Int.tmod_def]
    have e24 : (realTimePST t + 3600000) * 24 = realTimePST t * 24 + 86400000 := by ring
    rw [e24]
    have htd : Int.tdiv (realTimePST t * 24 + 86400000) 86400000
        = Int.tdiv ((realTimePST t + 3600000) * 24) 86400000 := by rw [e24]
    norm_num [htd]
    ring

/-- Witness for C4 at the epoch instant. -/
theorem cycle_advances_each_hour_witness :
    totalCycles (0 + 3600000) = totalCycles 0 + 1 :=
  (cycle_advances_each_hour 0).1

/-- C5: on the hour range `[0,24)` the period function partitions the hours
into exactly the four ranges Morning `[3,6)`, Day `[6,18)`, Evening `[18,21)`
and Night `[21,24) ∪ [0,3)` — contiguous, no gaps, no overlaps (each hour gets
exactly one of the four labels, characterized by the four equivalences). -/
theorem getPartOfDay_partitions (h : ℤ) (h0 : 0 ≤ h) (h1 : h < 24) :
    (getPartOfDay h = "Morning" ↔ 3 ≤ h ∧ h < 6) ∧
    (getPartOfDay h = "Day" ↔ 6 ≤ h ∧ h < 18) ∧
    (getPartOfDay h = "Evening" ↔ 18 ≤ h ∧ h < 21) ∧
    (getPartOfDay h = "Night" ↔ (21 ≤ h ∧ h < 24) ∨ (0 ≤ h ∧ h < 3)) := by
  interval_cases h <;> decide

/-- Witness for C5 at hour 4 (a Morning hour). -/
theorem getPartOfDay_partitions_witness :
    ((0 : ℤ) ≤ 4 ∧ (4 : ℤ) < 24) ∧ (getPartOfDay 4 = "Morning" ↔ 3 ≤ (4 : ℤ) ∧ (4 : ℤ) < 6) := by
  exact ⟨by decide, (getPartOfDay_partitions 4 (by decide) (by decide)).1⟩

end Clock

namespace Planner

/-- C1 (counterexample): `EIGHT_TOKEN_CODE`'s first plot entry tokenizes to 8
tile tokens, yet `parseGridData` does not fail with any error — it returns a
`ParsedGardenData`.  The source only logs a warning for such a plot (lines
422-424) and keeps going; no `TileCountMismatch` failure exists. -/
theorem tile_count_mismatch_not_fatal :
    (jsMatch ((splitOnSep '-'
        (((splitOnSep '_' EIGHT_TOKEN_CODE.toList).getD 2 []).drop 3)).getD 0 [])).length = 8 ∧
    (parseGridData uuidA EIGHT_TOKEN_CODE).isOk = true := by decide

/-- C1 (amended): a plot whose entry tokenizes to other than 9 tile tokens is
skipped — all nine of its tiles stay unassigned — while the rest of the
garden decodes normally and a full `ParsedGardenData` is returned (here: the
skipped `TTTTTTTT` plot contributes nothing, the following `PPPPPPPPP` plot
yields 9 Potato plants). -/
theorem bad_plot_skipped_decode_continues :
    ((parseGridData uuidA EIGHT_TOKEN_CODE).toOption.map (fun g =>
      (g.tiles.map (fun row => (row.take 3).map (fun t => t.cropType)),
       g.cropSummary.cropBreakdown.map (fun p => (p.1, p.2.total)),
       g.cropSummary.totalPlants)))
    = some ([[none, none, none], [none, none, none], [none, none, none]],
            [("Potato", 9)], 9) := by decide

/-- C2: decoding the fixed sample save code yields a 3×3 grid of active
plots, crop summary exactly Tomato 9 (single, 1 tile/plant), Potato 9
(single, 1), Apple 1 (tree, 9 tiles floor-divided by footprint 9), and total
plant count 19. -/
theorem sample_code_crop_summary :
    ((parseGridData uuidA SAMPLE_SAVE_CODE).toOption.map (fun g => g.activePlots))
      = some [[true, true, true], [true, true, true], [true, true, true]] ∧
    ((parseGridData uuidA SAMPLE_SAVE_CODE).toOption.map (fun g =>
        g.cropSummary.cropBreakdown.map (fun p => (p.1, p.2.total, p.2.size, p.2.tilesPerPlant))))
      = some [("Tomato", 9, "single", 1), ("Potato", 9, "single", 1), ("Apple", 1, "tree", 9)] ∧
    ((parseGridData uuidA SAMPLE_SAVE_CODE).toOption.map (fun g => g.cropSummary.totalPlants))
      = some 19 := by decide

end Planner

namespace Planner

/-- Reading `List.getD` through `List.map`, for a default the function fixes. -/
theorem getD_map {α β : Type _} (f : α → β) (l : List α) (i : ℕ) (d : α) (d' : β)
    (hd : f d = d') : (l.map f).getD i d' = f (l.getD i d) := by
  rw [List.getD_eq_getElem?_getD, List.getD_eq_getElem?_getD, List.getElem?_map]
  cases l[i]? <;> simp [hd]

/-- Reading a tile commutes with erasing generated identifiers. -/
theorem getTile_erase (g : List (List GridTile)) (r c : ℕ) :
    getTile (eraseGridIds g) r c = eraseTileId (getTile g r c) := by
  unfold getTile eraseGridIds
  rw [getD_map (List.map eraseTileId) g r [] [] rfl]
  rw [getD_map eraseTileId _ c defaultTile defaultTile rfl]

/-- Writing a tile commutes with erasing generated identifiers. -/
theorem setTile_erase (g : List (List GridTile)) (r c : ℕ) (t : GridTile) :
    eraseGridIds (setTile g r c t) = setTile (eraseGridIds g) r c (eraseTileId t) := by
  unfold setTile eraseGridIds
  rw [List.map_set, List.map_set]
  congr 2
  exact (getD_map (List.map eraseTileId) g r [] [] rfl).symm

/-- Updating `cropType` preserves equality up to erased identifiers. -/
theorem erase_withCrop {a b : GridTile} (h : eraseTileId a = eraseTileId b)
    (v : Option String) :
    eraseTileId { a with cropType := v } = eraseTileId { b with cropType := v } := by
  cases a; cases b; simp_all [eraseTileId]

/-- Updating `fertilizerType` preserves equality up to erased identifiers. -/
theorem erase_withFert {a b : GridTile} (h : eraseTileId a = eraseTileId b)
    (v : Option String) :
    eraseTileId { a with fertilizerType := v } = eraseTileId { b with fertilizerType := v } := by
  cases a; cases b; simp_all [eraseTileId]

/-- Updating `cropId` with any two values preserves equality up to erased
identifiers. -/
theorem erase_withId {a b : GridTile} (h : eraseTileId a = eraseTileId b)
    (v w : Option String) :
    eraseTileId { a with cropId := v } = eraseTileId { b with cropId := w } := by
  cases a; cases b; simp_all [eraseTileId]

/-- The crop assignment under two identifier supplies yields tiles that agree
once generated identifiers are erased. -/
theorem applyCrop_congr_fst (u1 u2 : ℕ → String) (ctr : ℕ) (tok : List Char)
    {a b : GridTile} (h : eraseTileId a = eraseTileId b) :
    eraseTileId (applyCrop u1 ctr tok a).1 = eraseTileId (applyCrop u2 ctr tok b).1 := by
  simp only [applyCrop]
  repeat' split
  all_goals first
    | exact erase_withId (erase_withCrop h _) _ _
    | exact erase_withCrop h _
    | exact h

/-- The counter after a crop assignment does not depend on the identifier
supply or on the tile's erased content. -/
theorem applyCrop_congr_snd (u1 u2 : ℕ → String) (ctr : ℕ) (tok : List Char)
    (a b : GridTile) :
    (applyCrop u1 ctr tok a).2 = (applyCrop u2 ctr tok b).2 := by
  simp only [applyCrop]
  repeat' split
  all_goals rfl

/-- The fertilizer assignment preserves equality up to erased identifiers. -/
theorem applyFert_congr (tok : List Char) {a b : GridTile}
    (h : eraseTileId a = eraseTileId b) :
    eraseTileId (applyFert tok a) = eraseTileId (applyFert tok b) := by
  simp only [applyFert]
  repeat' split
  all_goals first
    | exact erase_withFert h _
    | exact h

/-- The per-tile body under two identifier supplies: grids agree after
erasing identifiers, and the counters agree. -/
theorem applyToken_congr (u1 u2 : ℕ → String) {g1 g2 : List (List GridTile)}
    (ctr r c : ℕ) (tok : List Char) (hg : eraseGridIds g1 = eraseGridIds g2) :
    eraseGridIds (applyToken u1 g1 ctr r c tok).1
      = eraseGridIds (applyToken u2 g2 ctr r c tok).1
    ∧ (applyToken u1 g1 ctr r c tok).2 = (applyToken u2 g2 ctr r c tok).2 := by
  have ht : eraseTileId (getTile g1 r c) = eraseTileId (getTile g2 r c) := by
    rw [← getTile_erase, ← getTile_erase, hg]
  unfold applyToken
  refine ⟨?_, applyCrop_congr_snd u1 u2 ctr tok _ _⟩
  rw [setTile_erase, setTile_erase, hg]
  congr 1
  exact applyFert_congr tok (applyCrop_congr_fst u1 u2 ctr tok ht)

/-- Two left folds preserve a relation preserved by their steps. -/
theorem foldl_rel {α₁ α₂ β : Type _} (R : α₁ → α₂ → Prop) (f1 : α₁ → β → α₁)
    (f2 : α₂ → β → α₂) (hstep : ∀ a1 a2 b, R a1 a2 → R (f1 a1 b) (f2 a2 b)) :
    ∀ (l : List β) (a1 : α₁) (a2 : α₂), R a1 a2 → R (l.foldl f1 a1) (l.foldl f2 a2) := by
  intro l
  induction l with
  | nil => exact fun a1 a2 h => h
  | cons x xs ih => exact fun a1 a2 h => ih _ _ (hstep _ _ _ h)

/-- One plot's 3×3 assignment under two identifier supplies. -/
theorem applyPlot_congr (u1 u2 : ℕ → String) (tileRows tileColumns : ℕ)
    {t1 t2 : List (List GridTile)} (ctr plotRow plotCol : ℕ)
    (codes : List (List Char)) (hg : eraseGridIds t1 = eraseGridIds t2) :
    eraseGridIds (applyPlot u1 tileRows tileColumns t1 ctr plotRow plotCol codes).1
      = eraseGridIds (applyPlot u2 tileRows tileColumns t2 ctr plotRow plotCol codes).1
    ∧ (applyPlot u1 tileRows tileColumns t1 ctr plotRow plotCol codes).2
      = (applyPlot u2 tileRows tileColumns t2 ctr plotRow plotCol codes).2 := by
  unfold applyPlot
  refine foldl_rel
    (fun (s1 s2 : List (List GridTile) × ℕ) =>
      eraseGridIds s1.1 = eraseGridIds s2.1 ∧ s1.2 = s2.2)
    _ _ ?_ (List.range 9) (t1, ctr) (t2, ctr) ⟨hg, rfl⟩
  intro a1 a2 tileIndex hR
  obtain ⟨ha, hc⟩ := hR
  dsimp only
  by_cases hcond : plotRow * 3 + tileIndex / 3 < tileRows
      ∧ plotCol * 3 + tileIndex % 3 < tileColumns ∧ tileIndex < codes.length
  · rw [if_pos hcond, if_pos hcond, hc]
    exact applyToken_congr u1 u2 a2.2 _ _ _ ha
  · rw [if_neg hcond, if_neg hcond]
    exact ⟨ha, hc⟩

/-- One plot-loop step under two identifier supplies. -/
theorem plotStep_congr (u1 u2 : ℕ → String) (tileRows tileColumns : ℕ)
    (cropRows : List (List Char)) (activePlots : List (List Bool))
    {s1 s2 : List (List GridTile) × ℕ × ℕ} (plotRow plotCol : ℕ)
    (h : eraseGridIds s1.1 = eraseGridIds s2.1 ∧ s1.2 = s2.2) :
    eraseGridIds (plotStep u1 tileRows tileColumns cropRows activePlots s1 plotRow plotCol).1
      = eraseGridIds (plotStep u2 tileRows tileColumns cropRows activePlots s2 plotRow plotCol).1
    ∧ (plotStep u1 tileRows tileColumns cropRows activePlots s1 plotRow plotCol).2
      = (plotStep u2 tileRows tileColumns cropRows activePlots s2 plotRow plotCol).2 := by
  obtain ⟨g1, i1, c1⟩ := s1
  obtain ⟨g2, i2, c2⟩ := s2
  obtain ⟨hg, hic⟩ := h
  simp only at hg hic
  obtain ⟨hi, hc⟩ := Prod.mk.injEq .. ▸ hic
  subst hi
  subst hc
  simp only [plotStep]
  by_cases hcond : ((activePlots.getD plotRow []).getD plotCol false) = true
      ∧ i1 < cropRows.length
  · rw [if_pos hcond, if_pos hcond]
    by_cases h9 : (jsMatch (cropRows.getD i1 [])).length = 9
    · rw [if_pos h9, if_pos h9]
      obtain ⟨hA, hB⟩ := applyPlot_congr u1 u2 tileRows tileColumns c1 plotRow plotCol
        (jsMatch (cropRows.getD i1 [])) hg
      exact ⟨hA, by rw [hB]⟩
    · rw [if_neg h9, if_neg h9]
      exact ⟨hg, rfl⟩
  · rw [if_neg hcond, if_neg hcond]
    exact ⟨hg, rfl⟩

/-- The whole plot loop under two identifier supplies: grids agree after
erasing identifiers; plot index and counter agree exactly. -/
theorem processPlots_congr (u1 u2 : ℕ → String) (tileRows tileColumns : ℕ)
    (cropRows : List (List Char)) (activePlots : List (List Bool))
    (plotRows plotColumns : ℕ) (tiles0 : List (List GridTile)) :
    eraseGridIds (processPlots u1 tileRows tileColumns cropRows activePlots
        plotRows plotColumns tiles0).1
      = eraseGridIds (processPlots u2 tileRows tileColumns cropRows activePlots
        plotRows plotColumns tiles0).1
    ∧ (processPlots u1 tileRows tileColumns cropRows activePlots
        plotRows plotColumns tiles0).2
      = (processPlots u2 tileRows tileColumns cropRows activePlots
        plotRows plotColumns tiles0).2 := by
  unfold processPlots
  refine foldl_rel
    (fun (s1 s2 : List (List GridTile) × ℕ × ℕ) =>
      eraseGridIds s1.1 = eraseGridIds s2.1 ∧ s1.2 = s2.2)
    _ _ ?_ (List.range plotRows) _ _ ⟨rfl, rfl⟩
  intro a1 a2 plotRow hR
  refine foldl_rel
    (fun (s1 s2 : List (List GridTile) × ℕ × ℕ) =>
      eraseGridIds s1.1 = eraseGridIds s2.1 ∧ s1.2 = s2.2)
    _ _ ?_ (List.range plotColumns) a1 a2 hR
  intro b1 b2 plotCol hR2
  exact plotStep_congr u1 u2 tileRows tileColumns cropRows activePlots plotRow plotCol hR2

/-- The tile-count scan only reads fields that erasing identifiers
preserves. -/
theorem tileCountsOf_erase (g : List (List GridTile)) :
    tileCountsOf (eraseGridIds g) = tileCountsOf g := by
  unfold tileCountsOf eraseGridIds
  simp only [List.foldl_map]
  rfl

/-- The crop summary only reads fields that erasing identifiers preserves. -/
theorem generateCropSummary_erase (g : List (List GridTile)) :
    generateCropSummary (eraseGridIds g) = generateCropSummary g := by
  unfold generateCropSummary
  rw [tileCountsOf_erase]

/-- Grids that agree after erasing identifiers have equal crop summaries. -/
theorem generateCropSummary_congr {t1 t2 : List (List GridTile)}
    (h : eraseGridIds t1 = eraseGridIds t2) :
    generateCropSummary t1 = generateCropSummary t2 := by
  rw [← generateCropSummary_erase t1, ← generateCropSummary_erase t2, h]

/-- The save-code parsing stage under two identifier supplies agrees up to
erasing generated identifiers. -/
theorem parseGridDataCore_uuid (u1 u2 : ℕ → String) (s : List Char) :
    (parseGridDataCore u1 s).map eraseIds = (parseGridDataCore u2 s).map eraseIds := by
  simp only [parseGridDataCore]
  by_cases h1 : (splitOnSep '_' s).length < 3
  · rw [if_pos h1, if_pos h1]
  · rw [if_neg h1, if_neg h1]
    by_cases h2 : startsWithChars ['v'] ((splitOnSep '_' s).getD 0 []) = true
    · rw [if_pos h2, if_pos h2]
      rcases hd : (splitOnSep '-' ((splitOnSep '_' s).getD 1 [])).drop 1 with _ | ⟨d0, ds⟩
      · simp only [hd]
      · simp only [hd]
        by_cases h4 : startsWithChars ['C', 'R', '-'] ((splitOnSep '_' s).getD 2 []) = true
        · rw [if_pos h4, if_pos h4]
          have hpp := processPlots_congr u1 u2 ((d0 :: ds).length * 3) (d0.length * 3)
            (splitOnSep '-' (List.drop 3 ((splitOnSep '_' s).getD 2 [])))
            (List.map (fun i => List.map
                (fun j => ((d0 :: ds).getD i []).getD j ' ' == '1') (List.range d0.length))
              (List.range (d0 :: ds).length))
            (d0 :: ds).length d0.length
            (mkInitialTiles ((d0 :: ds).length * 3) (d0.length * 3) (d0 :: ds).length
              d0.length
              (List.map (fun i => List.map
                  (fun j => ((d0 :: ds).getD i []).getD j ' ' == '1') (List.range d0.length))
                (List.range (d0 :: ds).length)))
          simp only [Except.map, Except.ok.injEq, eraseIds, ParsedGardenData.mk.injEq]
          and_intros <;> first
            | exact hpp.1
            | exact generateCropSummary_congr hpp.1
            | trivial
        · rw [if_neg h4, if_neg h4]
    · rw [if_neg h2, if_neg h2]

/-- C6 (amended): decoding the same save code twice — two runs of the
decoder with different fresh-identifier supplies — yields `ParsedGardenData`
values that are structurally identical except for the generated `cropId`
fields on multi-tile crop tiles; in particular the aggregated crop summaries
of the two runs are always equal.  (Full structural identity fails whenever a
multi-tile crop is present, see the counterexample.) -/
theorem parse_deterministic_up_to_cropIds (u1 u2 : ℕ → String) (s : String) :
    (parseGridData u1 s).map eraseIds = (parseGridData u2 s).map eraseIds ∧
    (parseGridData u1 s).toOption.map (fun g => g.cropSummary)
      = (parseGridData u2 s).toOption.map (fun g => g.cropSummary) := by
  have hmain : (parseGridData u1 s).map eraseIds = (parseGridData u2 s).map eraseIds := by
    unfold parseGridData
    by_cases hh : startsWithChars "http".toList s.toList = true
    · rw [if_pos hh, if_pos hh]
      rcases hL : extractLayoutParam s.toList with e | code
      · simp only [hL]
      · simp only [hL]
        exact parseGridDataCore_uuid u1 u2 code
    · rw [if_neg hh, if_neg hh]
      exact parseGridDataCore_uuid u1 u2 s.toList
  have hsum : ∀ (x : Except String ParsedGardenData),
      x.toOption.map (fun g => g.cropSummary)
        = (x.map eraseIds).toOption.map (fun g => g.cropSummary) := by
    intro x
    cases x <;> rfl
  exact ⟨hmain, by rw [hsum (parseGridData u1 s), hsum (parseGridData u2 s), hmain]⟩

/-- Witness for the amended C6: the two sample-code runs agree on the crop
summary. -/
theorem parse_deterministic_up_to_cropIds_witness :
    (parseGridData uuidA SAMPLE_SAVE_CODE).toOption.map (fun g => g.cropSummary)
      = (parseGridData uuidB SAMPLE_SAVE_CODE).toOption.map (fun g => g.cropSummary) :=
  (parse_deterministic_up_to_cropIds uuidA uuidB SAMPLE_SAVE_CODE).2

/-- C6 (counterexample): the sample garden contains Apple (tree) tiles, whose
`cropId` is freshly generated (`uuidv4()`) on every decode; two runs of the
decoder — embodied by two different identifier supplies — both succeed but do
NOT yield structurally identical `ParsedGardenData` values. -/
theorem uuid_breaks_structural_identity :
    ((parseGridData uuidA SAMPLE_SAVE_CODE).toOption.map
        (fun g => (getTile g.tiles 0 6).cropId)) = some (some "a0") ∧
    ((parseGridData uuidB SAMPLE_SAVE_CODE).toOption.map
        (fun g => (getTile g.tiles 0 6).cropId)) = some (some "b0") ∧
    (parseGridData uuidA SAMPLE_SAVE_CODE).toOption
      ≠ (parseGridData uuidB SAMPLE_SAVE_CODE).toOption := by
  have h1 : ((parseGridData uuidA SAMPLE_SAVE_CODE).toOption.map
      (fun g => (getTile g.tiles 0 6).cropId)) = some (some "a0") := by decide
  have h2 : ((parseGridData uuidB SAMPLE_SAVE_CODE).toOption.map
      (fun g => (getTile g.tiles 0 6).cropId)) = some (some "b0") := by decide
  refine ⟨h1, h2, fun h => ?_⟩
  have h3 := congrArg (Option.map (fun g => (getTile g.tiles 0 6).cropId)) h
  rw [h1, h2] at h3
  exact absurd h3 (by decide)

/-- C7 (counterexample): `UNKNOWN_CODE_SAVE` has one unknown crop code (`Z`)
and `KNOWN_CODE_SAVE` none, yet the two decodes agree on every component of
the result — every tile field, active plots, crop summary, dimensions (each
side is pinned to the same explicit value) — except the verbatim echo of the
input string.  No component of the result reports the number of unknown
codes, refuting "the number of unknown codes is reported for diagnostics"
(the per-tile recovery itself does hold). -/
theorem unknown_code_count_not_reported :
    unknownCropCodeCount UNKNOWN_CODE_SAVE.toList = 1 ∧
    unknownCropCodeCount KNOWN_CODE_SAVE.toList = 0 ∧
    ((parseGridData uuidA UNKNOWN_CODE_SAVE).toOption.map (fun g =>
        g.tiles.map (fun row => row.map (fun t => (t.cropType, t.fertilizerType)))))
      = some tomatoPlotCropFert ∧
    ((parseGridData uuidA KNOWN_CODE_SAVE).toOption.map (fun g =>
        g.tiles.map (fun row => row.map (fun t => (t.cropType, t.fertilizerType)))))
      = some tomatoPlotCropFert ∧
    ((parseGridData uuidA UNKNOWN_CODE_SAVE).toOption.map (fun g =>
        g.tiles.map (fun row => row.map (fun t => (t.needsWater, t.isActive)))))
      = some (List.replicate 3 (List.replicate 9 (false, true))) ∧
    ((parseGridData uuidA KNOWN_CODE_SAVE).toOption.map (fun g =>
        g.tiles.map (fun row => row.map (fun t => (t.needsWater, t.isActive)))))
      = some (List.replicate 3 (List.replicate 9 (false, true))) ∧
    ((parseGridData uuidA UNKNOWN_CODE_SAVE).toOption.map (fun g =>
        g.tiles.map (fun row => row.map (fun t => (t.row, t.col)))))
      = some ((List.range 3).map (fun i => (List.range 9).map (fun j => (i, j)))) ∧
    ((parseGridData uuidA KNOWN_CODE_SAVE).toOption.map (fun g =>
        g.tiles.map (fun row => row.map (fun t => (t.row, t.col)))))
      = some ((List.range 3).map (fun i => (List.range 9).map (fun j => (i, j)))) ∧
    ((parseGridData uuidA UNKNOWN_CODE_SAVE).toOption.map (fun g =>
        g.tiles.map (fun row => row.map (fun t => t.cropId))))
      = some (List.replicate 3 (List.replicate 9 (none : Option String))) ∧
    ((parseGridData uuidA KNOWN_CODE_SAVE).toOption.map (fun g =>
        g.tiles.map (fun row => row.map (fun t => t.cropId))))
      = some (List.replicate 3 (List.replicate 9 (none : Option String))) ∧
    ((parseGridData uuidA UNKNOWN_CODE_SAVE).toOption.map (fun g => g.activePlots))
      = some [[true, true, true]] ∧
    ((parseGridData uuidA KNOWN_CODE_SAVE).toOption.map (fun g => g.activePlots))
      = some [[true, true, true]] ∧
    ((parseGridData uuidA UNKNOWN_CODE_SAVE).toOption.map (fun g => g.cropSummary))
      = some ⟨8, 0, [("Tomato", ⟨8, 0, "single", 1⟩)], 0⟩ ∧
    ((parseGridData uuidA KNOWN_CODE_SAVE).toOption.map (fun g => g.cropSummary))
      = some ⟨8, 0, [("Tomato", ⟨8, 0, "single", 1⟩)], 0⟩ ∧
    ((parseGridData uuidA UNKNOWN_CODE_SAVE).toOption.map (fun g =>
        (g.dimensionsRows, g.dimensionsColumns))) = some (3, 9) ∧
    ((parseGridData uuidA KNOWN_CODE_SAVE).toOption.map (fun g =>
        (g.dimensionsRows, g.dimensionsColumns))) = some (3, 9) := by
  and_intros <;> decide

/-- C7 (amended): unknown crop codes are recoverable per-tile and the decode
never aborts — once the format guards pass (enough sections, `v` version
marker, a non-empty dimension list, `CR-` marker), the save-code parsing
stage returns `ok` whatever crop codes appear; concretely, decoding
`UNKNOWN_CODE_SAVE` leaves the `Z` tile unassigned while the rest of the
garden decodes normally (8 Tomato plants).  The number of unknown codes,
however, is not reported anywhere (see the counterexample). -/
theorem unknown_codes_recoverable (u : ℕ → String) (s : List Char)
    (h1 : ¬ (splitOnSep '_' s).length < 3)
    (h2 : startsWithChars ['v'] ((splitOnSep '_' s).getD 0 []) = true)
    (h3 : (splitOnSep '-' ((splitOnSep '_' s).getD 1 [])).drop 1 ≠ [])
    (h4 : startsWithChars ['C', 'R', '-'] ((splitOnSep '_' s).getD 2 []) = true) :
    (parseGridDataCore u s).isOk = true ∧
    ((parseGridData uuidA UNKNOWN_CODE_SAVE).toOption.map (fun g =>
      ((getTile g.tiles 0 0).cropType,
       g.cropSummary.cropBreakdown.map (fun p => (p.1, p.2.total)))))
      = some (none, [("Tomato", 8)]) := by
  constructor
  · simp only [parseGridDataCore]
    rw [if_neg h1, if_pos h2]
    rcases hd : (splitOnSep '-' ((splitOnSep '_' s).getD 1 [])).drop 1 with _ | ⟨d0, ds⟩
    · exact absurd hd h3
    · simp only [hd]
      rw [if_pos h4]
      rfl
  · decide

/-- Witness for the amended C7 at the save code with the unknown `Z`. -/
theorem unknown_codes_recoverable_witness :
    ¬ (splitOnSep '_' UNKNOWN_CODE_SAVE.toList).length < 3 ∧
    (parseGridDataCore uuidA UNKNOWN_CODE_SAVE.toList).isOk = true := by
  exact ⟨by decide,
    (unknown_codes_recoverable uuidA UNKNOWN_CODE_SAVE.toList
      (by decide) (by decide) (by decide) (by decide)).1⟩

/-- C8 (counterexample): `URL_INPUT` splits on `_` into 3 sections whose
first section does not start with `v` (it starts with `http`), so it
satisfies the claim's premise; but the decoder does not fail — the `http`
branch extracts the `layout` query parameter and the decode succeeds. -/
theorem url_input_bypasses_direct_format_check :
    startsWithChars ['v'] ((splitOnSep '_' URL_INPUT.toList).getD 0 []) = false ∧
    (splitOnSep '_' URL_INPUT.toList).length = 3 ∧
    (parseGridData uuidA URL_INPUT).isOk = true := by decide

/-- C8 (amended): for every input that does not start with `http` (so the
save code is the input itself), splitting into fewer than 3 `_`-sections, or
a first section that does not start with `v`, makes the decoder fail with the
corresponding typed `InvalidFormat` error — a returned error value, not a
crash — and no `ParsedGardenData` is produced.  (Inputs starting with `http`
are first unwrapped as planner URLs and the format checks apply to the
extracted `layout` parameter instead.) -/
theorem malformed_direct_input_rejected (u : ℕ → String) (s : String)
    (hh : startsWithChars "http".toList s.toList = false)
    (hbad : (splitOnSep '_' s.toList).length < 3 ∨
      startsWithChars ['v'] ((splitOnSep '_' s.toList).getD 0 []) = false) :
    parseGridData u s = .error "Invalid save code format - insufficient sections." ∨
    parseGridData u s = .error "Invalid save code format - missing version prefix." := by
  simp only [String.toList] at hh hbad
  unfold parseGridData
  simp only [String.toList, hh, Bool.false_eq_true, if_false]
  rcases hbad with hb | hb
  · left
    simp only [parseGridDataCore]
    rw [if_pos hb]
  · by_cases h1 : (splitOnSep '_' s.data).length < 3
    · left
      simp only [parseGridDataCore]
      rw [if_pos h1]
    · right
      simp only [parseGridDataCore]
      rw [if_neg h1]
      rw [if_neg (by simpa using hb :
        ¬ startsWithChars ['v'] ((splitOnSep '_' s.data).getD 0 []) = true)]

/-- Witness for the amended C8 on the literal input `"garbage"`. -/
theorem malformed_direct_input_rejected_witness :
    startsWithChars "http".toList "garbage".toList = false ∧
    (parseGridData uuidA "garbage" = .error "Invalid save code format - insufficient sections." ∨
     parseGridData uuidA "garbage" = .error "Invalid save code format - missing version prefix.") := by
  exact ⟨by decide,
    malformed_direct_input_rejected uuidA "garbage" (by decide) (Or.inl (by decide))⟩

end Planner

namespace Store

/-- C9: the daily reset records the given day as `lastResetDay` (keeping
`resetTime`), keeps the collection's length, and for each position clears
`isWatered` while leaving every other field of the tracked crop — `cropType`,
`source`, `plantInstances`, `totalCount`, `lastWateredAt`, `addedAt` —
unchanged. -/
theorem resetDailyWatering_spec (s : StoreState) (d : String) (i : ℕ)
    (h : i < s.trackedCrops.length) :
    (resetDailyWatering s d).dailyWateringState.lastResetDay = d ∧
    (resetDailyWatering s d).dailyWateringState.resetTime = s.dailyWateringState.resetTime ∧
    (resetDailyWatering s d).trackedCrops.length = s.trackedCrops.length ∧
    (s.trackedCrops[i]?).isSome = true ∧
    ∀ c' c : TrackedCrop,
      (resetDailyWatering s d).trackedCrops[i]? = some c' →
      s.trackedCrops[i]? = some c →
      c'.isWatered = false ∧ c'.cropType = c.cropType ∧ c'.source = c.source ∧
      c'.plantInstances = c.plantInstances ∧ c'.totalCount = c.totalCount ∧
      c'.lastWateredAt = c.lastWateredAt ∧ c'.addedAt = c.addedAt := by
  refine ⟨rfl, rfl, by simp [resetDailyWatering], by simp [List.getElem?_eq_getElem h], ?_⟩
  intro c' c hc' hc
  simp only [resetDailyWatering, List.getElem?_map, hc, Option.map_some] at hc'
  obtain rfl := Option.some.injEq .. ▸ hc'
  exact ⟨rfl, rfl, rfl, rfl, rfl, rfl, rfl⟩

/-- Witness for C9 on the concrete one-crop store. -/
theorem resetDailyWatering_spec_witness :
    0 < sampleStore.trackedCrops.length ∧
    (resetDailyWatering sampleStore "Day 2 Cycle 03").dailyWateringState.lastResetDay
      = "Day 2 Cycle 03" :=
  ⟨by decide, (resetDailyWatering_spec sampleStore "Day 2 Cycle 03" 0 (by decide)).1⟩

/-- C10: adding a crop type that is already tracked leaves the tracked-crop
collection and the daily watering state unchanged and only records an error
message; adding a new crop type appends exactly one new `TrackedCrop` with
`isWatered = false` and source `"manual"`, leaving all existing crops (the
prefix of the collection) and the daily watering state unchanged. -/
theorem addCropManually_spec (s : StoreState) (c : String) (now : ℤ) :
    (s.trackedCrops.any (fun crop => crop.cropType == c) = true →
      (addCropManually s c now).trackedCrops = s.trackedCrops ∧
      (addCropManually s c now).dailyWateringState = s.dailyWateringState ∧
      (addCropManually s c now).lastError = some (c ++ " is already being tracked")) ∧
    (s.trackedCrops.any (fun crop => crop.cropType == c) = false →
      (addCropManually s c now).trackedCrops
        = s.trackedCrops ++ [createTrackedCrop c "manual" [] now] ∧
      (addCropManually s c now).dailyWateringState = s.dailyWateringState ∧
      (addCropManually s c now).lastError = none ∧
      (createTrackedCrop c "manual" [] now).isWatered = false ∧
      (createTrackedCrop c "manual" [] now).source = "manual") := by
  constructor
  · intro hmem
    simp [addCropManually, hmem]
  · intro hmem
    simp [addCropManually, hmem]
    exact ⟨rfl, rfl⟩

/-- Witness for C10: both branches at the concrete one-crop store. -/
theorem addCropManually_spec_witness :
    (sampleStore.trackedCrops.any (fun crop => crop.cropType == "Tomato") = true ∧
      (addCropManually sampleStore "Tomato" 5).trackedCrops = sampleStore.trackedCrops) ∧
    (sampleStore.trackedCrops.any (fun crop => crop.cropType == "Rice") = false ∧
      (addCropManually sampleStore "Rice" 5).trackedCrops
        = sampleStore.trackedCrops ++ [createTrackedCrop "Rice" "manual" [] 5]) :=
  ⟨⟨by decide, ((addCropManually_spec sampleStore "Tomato" 5).1 (by decide)).1⟩,
   ⟨by decide, ((addCropManually_spec sampleStore "Rice" 5).2 (by decide)).1⟩⟩

end Store
